import Mathlib

/-
Verification of the diii device-link layer: a shallow embedding of the
line-protocol tokenizer, upload framing, event dispatcher, reconnect pump
and websocket bridge read, with theorems settling the specification claims.
Python strings are modelled as lists of characters; transmitted payloads as
lists of UTF-8 byte values.
-/

namespace Diii

/-- A Python string, modelled as its list of characters. -/
abbrev PyStr := List Char

/-- Convert a Lean string literal to the Python-string model. -/
def toPy (s : String) : PyStr := s.toList

/-- The characters stripped by Python `str.rstrip()` with no argument
(ASCII whitespace as used by the device protocol). -/
def pyIsSpace (c : Char) : Bool :=
  c = ' ' || c = '\t' || c = '\n' || c = '\r' || c = '\x0b' || c = '\x0c'

/-- Python `s.rstrip()`: drop trailing whitespace. -/
def rstrip (s : PyStr) : PyStr := (s.reverse.dropWhile pyIsSpace).reverse

/-- Python `s.rstrip(chr)` for a close-parenthesis: drop trailing `)` characters. -/
def rstripParens (s : PyStr) : PyStr := (s.reverse.dropWhile (· = ')')).reverse

/-- Python `s.split(chr)` for a comma separator, as used in
`t3[2].rstrip(chr).split(chr)` of `Deviceviii.process_line`. -/
def splitComma : PyStr → List PyStr
  | [] => [[]]
  | c :: rest =>
    if c = ',' then [] :: splitComma rest
    else
      match splitComma rest with
      | [] => [[c]]
      | p :: ps => (c :: p) :: ps

/-- Python `line.split(m)` on the two-character event marker `m` (caret caret),
scanning left to right without overlap. -/
def splitMarker : PyStr → List PyStr
  | [] => [[]]
  | '^' :: '^' :: rest => [] :: splitMarker rest
  | c :: rest =>
    match splitMarker rest with
    | [] => [[c]]
    | p :: ps => (c :: p) :: ps

/-- Python `r.split(t)` on the two-character sequence `t` = LF CR, the
separator used by `Deviceviii.read_forever`. -/
def splitNR : PyStr → List PyStr
  | [] => [[]]
  | '\n' :: '\r' :: rest => [] :: splitNR rest
  | c :: rest =>
    match splitNR rest with
    | [] => [[c]]
    | p :: ps => (c :: p) :: ps

/-- Python `m in line` for the two-character event marker. -/
def containsMarker : PyStr → Bool
  | [] => false
  | '^' :: '^' :: _ => true
  | _ :: rest => containsMarker rest

/-- Python `s.partition(chr)` at the first open-parenthesis: returns the text
before the separator, the separator itself (empty when absent), and the rest. -/
def partitionParen : PyStr → PyStr × PyStr × PyStr
  | [] => ([], [], [])
  | c :: rest =>
    if c = '(' then ([], ['('], rest)
    else
      let p := partitionParen rest
      (c :: p.1, p.2.1, p.2.2)

/-- An event raised by `Deviceviii.process_line`: either a structured device
event (full line, event name, argument list) or a plain output line. -/
inductive DeviceEvent
  | iii_event (line : PyStr) (evt : PyStr) (args : List PyStr)
  | iii_output (line : PyStr)
deriving DecidableEq

/-- The loop body of `Deviceviii.process_line` for one marker-separated
segment: rstrip the segment, partition at the first open-parenthesis, skip
when all three parts are empty (Python `not any(t3)`), otherwise build the
structured event with the trailing close-parentheses stripped from the
argument text and the result split on commas. -/
def segmentEvent (line : PyStr) (cmd : PyStr) : Option DeviceEvent :=
  let t3 := partitionParen (rstrip cmd)
  if t3.1 = [] ∧ t3.2.1 = [] ∧ t3.2.2 = [] then none
  else some (.iii_event line t3.1 (splitComma (rstripParens t3.2.2)))

/-- `Deviceviii.process_line`: tokenize one received line. -/
def process_line (line : PyStr) : List DeviceEvent :=
  if containsMarker line then
    (splitMarker line).filterMap (segmentEvent line)
  else if line.length > 0 then [.iii_output line] else []

/-- The UTF-8 encoding of one character (byte values), per the standard
1-to-4-byte scheme used by Python `str.encode` with no arguments. -/
def utf8Bytes (c : Char) : List Nat :=
  let n := c.toNat
  if n < 0x80 then [n]
  else if n < 0x800 then [0xC0 + n / 64, 0x80 + n % 64]
  else if n < 0x10000 then
    [0xE0 + n / 4096, 0x80 + (n / 64) % 64, 0x80 + n % 64]
  else
    [0xF0 + n / 262144, 0x80 + (n / 4096) % 64, 0x80 + (n / 64) % 64, 0x80 + n % 64]

/-- Python `s.encode(u)` for UTF-8: the byte string of a Python string. -/
def utf8Encode (s : PyStr) : List Nat := (s.map utf8Bytes).flatten

/-- The device line terminator CR LF appended by `Deviceviii.writeline`. -/
def rn : PyStr := ['\r', '\n']

/-- The padding applied by `Deviceviii.writebin`: a byte string whose length
is a multiple of 64 gets one extra newline byte appended before transmission. -/
def writebin_pad (b : List Nat) : List Nat :=
  if b.length % 64 == 0 then b ++ [10] else b

/-- The bytes put on the wire by `Deviceviii.write(s)` when a bridge is
present and open: encode to UTF-8, then apply the length-64 padding. -/
def write_py (s : PyStr) : List Nat := writebin_pad (utf8Encode s)

/-- The link configuration seen by the write path: whether `self.serial`
is not `None`, and whether the bridge's transport is open. -/
structure LinkCfg where
  has_serial : Bool
  serial_open : Bool
deriving DecidableEq

/-- Errors raised out of the upload/write path: `FileNotFoundError` from
opening a missing script, or the bridge's not-open `SerialException`. -/
inductive UpErr
  | fileNotFound
  | notOpen
deriving DecidableEq

/-- One observable step of an upload: a raised progress event (name and
path argument) or a byte string written to the bridge. -/
inductive UpItem
  | raiseEv (name : PyStr) (fname : PyStr)
  | write (bytes : List Nat)
deriving DecidableEq

/-- `true` exactly on trace items that transmit bytes. -/
def isWriteItem : UpItem → Bool
  | .write _ => true
  | .raiseEv _ _ => false

/-- `Deviceviii.write(s)` observed at the bridge: with a bridge present and
open the padded UTF-8 bytes are enqueued; present but closed, the bridge's
`write` raises its not-open error; with no bridge (`serial is None`)
`writebin` returns without transmitting. Result: writes performed, error. -/
def link_write (cfg : LinkCfg) (s : PyStr) : List (List Nat) × Option UpErr :=
  if cfg.has_serial then
    if cfg.serial_open then ([write_py s], none)
    else ([], some .notOpen)
  else ([], none)

/-- `Deviceviii.writeline(s)`: append the terminator, then `write`. -/
def link_writeline (cfg : LinkCfg) (s : PyStr) : List (List Nat) × Option UpErr :=
  link_write cfg (s ++ rn)

/-- One `writeline` inside the upload sequence, threading the trace and the
first error: once an exception has been raised no further code runs. -/
def doWriteline (cfg : LinkCfg) (acc : List UpItem × Option UpErr) (line : PyStr) :
    List UpItem × Option UpErr :=
  match acc with
  | (tr, some e) => (tr, some e)
  | (tr, none) =>
    if cfg.has_serial then
      if cfg.serial_open then (tr ++ [.write (write_py (line ++ rn))], none)
      else (tr, some .notOpen)
    else (tr, none)

/-- `Deviceviii.writefile`: write each line of the opened file, with
trailing whitespace stripped, as its own terminated write. -/
def writefile_run (cfg : LinkCfg) (acc : List UpItem × Option UpErr)
    (contents : List PyStr) : List UpItem × Option UpErr :=
  contents.foldl (fun a l => doWriteline cfg a (rstrip l)) acc

/-- `Deviceviii._upload`: raise the progress event, send the start marker,
open the file (raising `FileNotFoundError` when `fs` is `none`), send each
line, then the mode terminator, then the final marker. `fs` is the file
system's view of the path: `none` when missing, otherwise the file's lines. -/
def upload_run (cfg : LinkCfg) (fname : PyStr) (fs : Option (List PyStr))
    (ev : PyStr) (endm : PyStr) : List UpItem × Option UpErr :=
  let a := doWriteline cfg ([UpItem.raiseEv ev fname], none) (toPy "^^s")
  match fs with
  | none => (a.1, a.2.orElse (fun _ => some .fileNotFound))
  | some contents =>
    let b := writefile_run cfg a contents
    let c := doWriteline cfg b endm
    doWriteline cfg c (toPy "^^z")

/-- `Deviceviii.upload`: the store-only transfer. -/
def upload (cfg : LinkCfg) (fname : PyStr) (fs : Option (List PyStr)) :
    List UpItem × Option UpErr :=
  upload_run cfg fname fs (toPy "uploading") (toPy "^^w")

/-- `Deviceviii.execute`: the store-and-run transfer. -/
def execute (cfg : LinkCfg) (fname : PyStr) (fs : Option (List PyStr)) :
    List UpItem × Option UpErr :=
  upload_run cfg fname fs (toPy "running") (toPy "^^e")

/-- The link state read and written by `Deviceviii.reconnect` and the
background pump: the connected flag, whether `self.serial` is not `None`,
and whether that bridge's transport is open. -/
structure LinkSt where
  is_connected : Bool
  has_serial : Bool
  serial_open : Bool
deriving DecidableEq

/-- The possible outcomes of `Deviceviii.connect` (which constructs a new
bridge and calls its `open`): the open raises, or it returns with the
transport established, or it returns without the transport open (the
bridge's stop event was already set). -/
inductive OpenOutcome
  | fails
  | opens
  | silent
deriving DecidableEq

/-- `Deviceviii.reconnect(err_event)`: try `connect`; when the bridge is
present and open, set the connected flag and raise `connect`; when `connect`
raises and the link was connected (or errors were requested), clear the flag
and raise `connect_err`. Returns the new state and the raised event names. -/
def reconnect_model (st : LinkSt) (err_event : Bool) (oc : OpenOutcome) :
    LinkSt × List PyStr :=
  match oc with
  | .opens =>
    ({ is_connected := true, has_serial := true, serial_open := true },
     [toPy "connect"])
  | .silent => ({ st with has_serial := true, serial_open := false }, [])
  | .fails =>
    if st.is_connected || err_event then
      ({ is_connected := false, has_serial := true, serial_open := false },
       [toPy "connect_err"])
    else ({ st with has_serial := true, serial_open := false }, [])

/-- What one successful-read iteration of `Deviceviii.read_forever` feeds to
`process_line`: the code binds the read data and immediately rebinds `r` to
the empty string before the length test and line split, so nothing is fed. -/
def pump_process (data : PyStr) : List PyStr :=
  let _r := data
  let r : PyStr := []
  if r.length > 0 then splitNR r else []

/-- The outcome of the bounded read at the top of a pump iteration. -/
inductive ReadOutcome
  | ok (data : PyStr)
  | fails
deriving DecidableEq

/-- One iteration of the `Deviceviii.read_forever` loop: on a successful
read, process the (discarded) data; on a read failure, log when connected
and call `reconnect` with default arguments. Returns the new link state,
the event names raised, and the lines fed to `process_line`. -/
def read_forever_iter (st : LinkSt) (ro : ReadOutcome) (oc : OpenOutcome) :
    LinkSt × List PyStr × List PyStr :=
  match ro with
  | .ok data => (st, [], pump_process data)
  | .fails =>
    let r := reconnect_model st false oc
    (r.1, r.2, [])

/-- A subscriber callback in the handler table, abstracted to its identity
and whether invoking it raises an exception. -/
structure Handler where
  id : Nat
  throws : Bool
deriving DecidableEq

/-- What the dispatcher does with one subscriber, observably: the callback
is invoked; when it raises, the failure is logged (and nothing propagates). -/
inductive DispatchAction
  | invoked (id : Nat)
  | logged (id : Nat)
deriving DecidableEq

/-- Python `self.event_handlers[event]` on the handler table: the value at
the first matching key, or the `KeyError` case as `none`. -/
def lookupHandlers : List (PyStr × List Handler) → PyStr → Option (List Handler)
  | [], _ => none
  | (k, hs) :: rest, ev => if k = ev then some hs else lookupHandlers rest ev

/-- Running one handler inside the dispatcher's per-handler try block. -/
def run_handler (h : Handler) : List DispatchAction :=
  if h.throws then [.invoked h.id, .logged h.id] else [.invoked h.id]

/-- `Deviceviii.raise_event`: a missing key is swallowed (`KeyError` then
`pass`); otherwise every handler runs in order, each in its own try block. -/
def raise_event (table : List (PyStr × List Handler)) (ev : PyStr) :
    List DispatchAction :=
  match lookupHandlers table ev with
  | none => []
  | some hs => (hs.map run_handler).flatten

/-- The invocation order recorded in a dispatch trace. -/
def invokedIds : List DispatchAction → List Nat
  | [] => []
  | .invoked i :: rest => i :: invokedIds rest
  | .logged _ :: rest => invokedIds rest

/-- `WebSocketSerialThreaded.read(size)` with the transport open: the loop
body dequeues up to `size` entries of the inbound queue — whole received
chunks, not bytes — concatenating them, and returns early with the data so
far when the queue empties within the timeout. Returns the data and the
remaining queue. -/
def ws_read : Nat → List (List Nat) → List Nat × List (List Nat)
  | 0, q => ([], q)
  | _ + 1, [] => ([], [])
  | n + 1, ch :: q =>
    let p := ws_read n q
    (ch ++ p.1, p.2)

/-- Modelled from the amended claim: the event name of a stripped segment is
its text before the first open-parenthesis, taken as is. -/
def segName (s : PyStr) : PyStr := s.takeWhile (· != '(')

/-- Modelled from the amended claim: the argument text of a stripped segment
is everything after its first open-parenthesis. -/
def segArgText (s : PyStr) : PyStr := (s.dropWhile (· != '(')).drop 1

/-- Modelled from the amended claim: a segment that is empty after stripping
trailing whitespace is discarded; any other segment (even a bare
open-parenthesis) yields one structured event built from its name and its
comma-split argument text with trailing close-parentheses removed. -/
def amendedSegment (line : PyStr) (seg : PyStr) : Option DeviceEvent :=
  let s := rstrip seg
  if s = [] then none
  else some (.iii_event line (segName s) (splitComma (rstripParens (segArgText s))))

/-- Modelled from the amended claim: the whole tokenization rule, split on
the event marker when present. -/
def tokenize_amended (line : PyStr) : List DeviceEvent :=
  if containsMarker line then
    (splitMarker line).filterMap (amendedSegment line)
  else if line.length > 0 then [.iii_output line] else []

/-- Splitting on commas always yields at least one part (Python `split`
returns `[s]` or more, never an empty list). -/
theorem splitComma_ne_nil (s : PyStr) : splitComma s ≠ [] := by
  cases s with
  | nil => simp [splitComma]
  | cons c rest =>
    simp only [splitComma]
    split
    · simp
    · split <;> simp

/-- The part of `partition` before the separator is the longest prefix free
of open-parentheses. -/
theorem partitionParen_fst (s : PyStr) :
    (partitionParen s).1 = s.takeWhile (· != '(') := by
  induction s with
  | nil => rfl
  | cons c rest ih =>
    by_cases hc : c = '('
    · subst hc
      simp [partitionParen, List.takeWhile_cons]
    · simp [partitionParen, hc, List.takeWhile_cons, ih]

/-- The part of `partition` after the separator is everything past the
first open-parenthesis (empty when there is none). -/
theorem partitionParen_after (s : PyStr) :
    (partitionParen s).2.2 = (s.dropWhile (· != '(')).drop 1 := by
  induction s with
  | nil => rfl
  | cons c rest ih =>
    by_cases hc : c = '('
    · subst hc
      simp [partitionParen, List.dropWhile_cons]
    · simp [partitionParen, hc, List.dropWhile_cons, ih]

/-- All three parts of `partition` are empty exactly when the input was. -/
theorem partitionParen_all_nil_iff (s : PyStr) :
    ((partitionParen s).1 = [] ∧ (partitionParen s).2.1 = [] ∧
      (partitionParen s).2.2 = []) ↔ s = [] := by
  cases s with
  | nil => simp [partitionParen]
  | cons c rest =>
    by_cases hc : c = '(' <;> simp [partitionParen, hc]


/-- The per-segment loop body agrees with the declarative amended rule. -/
theorem segmentEvent_eq (line cmd : PyStr) :
    segmentEvent line cmd = amendedSegment line cmd := by
  by_cases h : rstrip cmd = []
  · simp [segmentEvent, amendedSegment, h, partitionParen]
  · simp only [segmentEvent, amendedSegment]
    rw [if_neg (fun hx => h ((partitionParen_all_nil_iff (rstrip cmd)).mp hx)),
        if_neg h, partitionParen_fst, partitionParen_after]
    rfl

/-- C2: the tokenizer discards a segment only when the entire stripped
segment is empty, not when name and argument text are both empty: the line
of a lone marker followed by an open-parenthesis has one segment whose name
and argument text are both empty, yet one structured event (empty name,
arguments a single empty string) is still emitted, where the claim predicts
none. -/
theorem C2_counterexample :
    process_line (toPy "^^(") = [DeviceEvent.iii_event (toPy "^^(") [] [[]]] ∧
    process_line (toPy "^^(") ≠ [] := by decide

/-- C2 (amended): for every received line containing the marker, the
tokenizer splits on the marker and, for each segment that is non-empty after
stripping trailing whitespace, emits one structured event whose name is the
text of the stripped segment before its first open-parenthesis (not further
trimmed) and whose arguments are the remainder after that parenthesis
(trailing close-parentheses stripped) split on commas, with the full line
attached; a segment with an open-parenthesis but empty name and argument
text still emits an event. The two quoted examples hold as stated. -/
theorem C2_amended :
    (∀ line, process_line line = tokenize_amended line) ∧
    process_line (toPy "foo(1,2)^^bar(3)") =
      [DeviceEvent.iii_event (toPy "foo(1,2)^^bar(3)") (toPy "foo")
        [toPy "1", toPy "2"],
       DeviceEvent.iii_event (toPy "foo(1,2)^^bar(3)") (toPy "bar") [toPy "3"]] ∧
    process_line (toPy "^^clear()") =
      [DeviceEvent.iii_event (toPy "^^clear()") (toPy "clear") [[]]] := by
  refine ⟨fun line => ?_, by decide, by decide⟩
  unfold process_line tokenize_amended
  rw [show segmentEvent line = amendedSegment line from
        funext (segmentEvent_eq line)]

/-- C10: every structured event emitted by the tokenizer carries at least
one argument; a bare name and an empty pair of parentheses both yield the
one-element argument list holding the empty string. -/
theorem C10_args_nonempty :
    (∀ (line l n : PyStr) (a : List PyStr),
        DeviceEvent.iii_event l n a ∈ process_line line → a ≠ []) ∧
    process_line (toPy "^^foo") =
      [DeviceEvent.iii_event (toPy "^^foo") (toPy "foo") [[]]] ∧
    process_line (toPy "^^foo()") =
      [DeviceEvent.iii_event (toPy "^^foo()") (toPy "foo") [[]]] := by
  refine ⟨?_, by decide, by decide⟩
  intro line l n a h
  unfold process_line at h
  split at h
  · rw [List.mem_filterMap] at h
    obtain ⟨seg, _, hf⟩ := h
    simp only [segmentEvent] at hf
    split at hf
    · exact absurd hf (by simp)
    · simp only [Option.some.injEq, DeviceEvent.iii_event.injEq] at hf
      obtain ⟨-, -, ha⟩ := hf
      exact ha ▸ splitComma_ne_nil _
  · split at h <;> simp at h

/-- C10 at a concrete input: the bare-name segment event carries the
one-element argument list. -/
theorem C10_witness : ([([] : PyStr)] : List PyStr) ≠ [] :=
  C10_args_nonempty.1 (toPy "^^foo") (toPy "^^foo") (toPy "foo") [[]] (by decide)

/-- UTF-8 encoding distributes over concatenation. -/
theorem utf8Encode_append (s t : PyStr) :
    utf8Encode (s ++ t) = utf8Encode s ++ utf8Encode t := by
  simp [utf8Encode]

/-- One terminated write with bridge present and open: append the padded
terminated bytes to the trace. -/
theorem doWriteline_ok (tr : List UpItem) (line : PyStr) :
    doWriteline ⟨true, true⟩ (tr, none) line =
      (tr ++ [UpItem.write (write_py (line ++ rn))], none) := rfl

/-- Writing a whole file with the bridge open appends one terminated,
stripped write per line, in order. -/
theorem writefile_run_ok (contents : List PyStr) (tr : List UpItem) :
    writefile_run ⟨true, true⟩ (tr, none) contents =
      (tr ++ contents.map (fun l => UpItem.write (write_py (rstrip l ++ rn))),
       none) := by
  induction contents generalizing tr with
  | nil => simp [writefile_run]
  | cons l ls ih =>
    simp only [writefile_run, List.foldl_cons, doWriteline_ok]
    have h2 := ih (tr ++ [UpItem.write (write_py (rstrip l ++ rn))])
    simp only [writefile_run] at h2
    rw [h2]
    simp

/-- Once an exception is pending, no further file line runs or writes. -/
theorem writefile_run_err (cfg : LinkCfg) (contents : List PyStr)
    (tr : List UpItem) (e : UpErr) :
    writefile_run cfg (tr, some e) contents = (tr, some e) := by
  induction contents with
  | nil => rfl
  | cons l ls ih =>
    simp only [writefile_run, List.foldl_cons, doWriteline]
    simpa [writefile_run] using ih

/-- With no bridge object at all, every file-line write is silently skipped. -/
theorem writefile_run_noserial (b : Bool) (contents : List PyStr)
    (tr : List UpItem) :
    writefile_run ⟨false, b⟩ (tr, none) contents = (tr, none) := by
  induction contents with
  | nil => rfl
  | cons l ls ih =>
    simp only [writefile_run, List.foldl_cons, doWriteline]
    simpa [writefile_run] using ih

/-- The full framed transfer with the bridge open, for either mode. -/
theorem upload_run_ok (fname ev endm : PyStr) (contents : List PyStr) :
    upload_run ⟨true, true⟩ fname (some contents) ev endm =
      ([UpItem.raiseEv ev fname,
        UpItem.write (write_py (toPy "^^s" ++ rn))] ++
       contents.map (fun l => UpItem.write (write_py (rstrip l ++ rn))) ++
       [UpItem.write (write_py (endm ++ rn)),
        UpItem.write (write_py (toPy "^^z" ++ rn))], none) := by
  simp only [upload_run, doWriteline_ok, writefile_run_ok, List.nil_append,
    List.singleton_append]
  simp [List.append_assoc]

/-- C1: the transmitted payload is not the raw source line followed by the
terminator: each line is stripped of trailing whitespace first, and a write
whose encoded length is a multiple of 64 bytes gets one extra newline byte.
A one-line file of 62 letters followed by a space is transmitted as the 62
letters, the terminator and a padding byte, not as the verbatim line plus
terminator that the claim predicts. -/
theorem C1_counterexample :
    (upload ⟨true, true⟩ (toPy "f") (some [List.replicate 62 'a' ++ [' ']])).1 ≠
      [UpItem.raiseEv (toPy "uploading") (toPy "f"),
       UpItem.write (utf8Encode (toPy "^^s" ++ rn)),
       UpItem.write (utf8Encode ((List.replicate 62 'a' ++ [' ']) ++ rn)),
       UpItem.write (utf8Encode (toPy "^^w" ++ rn)),
       UpItem.write (utf8Encode (toPy "^^z" ++ rn))] := by decide

/-- C1 (amended): for every existing script file, `upload` first raises
`uploading` with the path, then transmits the start marker, then every
source line with trailing whitespace stripped, then the mode terminator,
then the final marker, each as one distinct write built by appending the
line terminator and padding writes whose UTF-8 length is a multiple of 64
bytes with one extra newline byte; `execute` is identical except that the
progress event is `running` and the execute terminator replaces the store
terminator. -/
theorem C1_amended :
    ∀ (fname : PyStr) (contents : List PyStr),
      upload ⟨true, true⟩ fname (some contents) =
        ([UpItem.raiseEv (toPy "uploading") fname,
          UpItem.write (write_py (toPy "^^s" ++ rn))] ++
         contents.map (fun l => UpItem.write (write_py (rstrip l ++ rn))) ++
         [UpItem.write (write_py (toPy "^^w" ++ rn)),
          UpItem.write (write_py (toPy "^^z" ++ rn))], none) ∧
      execute ⟨true, true⟩ fname (some contents) =
        ([UpItem.raiseEv (toPy "running") fname,
          UpItem.write (write_py (toPy "^^s" ++ rn))] ++
         contents.map (fun l => UpItem.write (write_py (rstrip l ++ rn))) ++
         [UpItem.write (write_py (toPy "^^e" ++ rn)),
          UpItem.write (write_py (toPy "^^z" ++ rn))], none) := by
  intro fname contents
  exact ⟨upload_run_ok fname (toPy "uploading") (toPy "^^w") contents,
         upload_run_ok fname (toPy "running") (toPy "^^e") contents⟩

/-- C5: on a missing path the upload does transmit before failing: the
progress event is raised and the start marker is written, and only then
does opening the file raise `FileNotFoundError`. -/
theorem C5_counterexample :
    upload ⟨true, true⟩ (toPy "f") none =
      ([UpItem.raiseEv (toPy "uploading") (toPy "f"),
        UpItem.write (write_py (toPy "^^s" ++ rn))], some UpErr.fileNotFound) ∧
    ((upload ⟨true, true⟩ (toPy "f") none).1.any isWriteItem) = true := by decide

/-- C5 (amended): for every path that does not name an existing file,
`upload` raises the `uploading` progress event, transmits the terminated
start marker, and then fails with `FileNotFoundError`; no payload line, no
mode terminator and no final marker is transmitted. `execute` behaves the
same with the `running` event. -/
theorem C5_amended :
    ∀ fname : PyStr,
      upload ⟨true, true⟩ fname none =
        ([UpItem.raiseEv (toPy "uploading") fname,
          UpItem.write (write_py (toPy "^^s" ++ rn))],
         some UpErr.fileNotFound) ∧
      execute ⟨true, true⟩ fname none =
        ([UpItem.raiseEv (toPy "running") fname,
          UpItem.write (write_py (toPy "^^s" ++ rn))],
         some UpErr.fileNotFound) := by
  intro fname
  exact ⟨rfl, rfl⟩

/-- C7: `write` does not always transmit exactly the UTF-8 encoding of its
argument: the empty string encodes to zero bytes, a multiple of 64, so one
padding newline byte is transmitted instead of nothing. -/
theorem C7_counterexample :
    link_write ⟨true, true⟩ [] = ([[10]], none) ∧
    utf8Encode [] = [] ∧
    link_write ⟨true, true⟩ [] ≠ ([utf8Encode []], none) := by decide

/-- C7 (amended): for every string `s`, `write(s)` transmits exactly the
UTF-8 encoding of `s`, except that when that encoding's length is a multiple
of 64 bytes one extra newline byte is appended; `writeLine(s)` transmits the
UTF-8 encoding of `s` followed by the terminator bytes 13 10, with the same
padding rule applied to the terminated length. -/
theorem C7_amended :
    ∀ s : PyStr,
      link_write ⟨true, true⟩ s =
        ([utf8Encode s ++
          (if (utf8Encode s).length % 64 = 0 then [10] else [])], none) ∧
      link_writeline ⟨true, true⟩ s =
        ([utf8Encode s ++ [13, 10] ++
          (if ((utf8Encode s).length + 2) % 64 = 0 then [10] else [])],
         none) := by
  intro s
  have happ : utf8Encode (s ++ rn) = utf8Encode s ++ [13, 10] := by
    rw [utf8Encode_append]; rfl
  constructor
  · simp only [link_write, if_true, write_py, writebin_pad]
    by_cases h : (utf8Encode s).length % 64 = 0 <;> simp [h]
  · simp only [link_writeline, link_write, if_true, write_py, writebin_pad, happ]
    have hlen : (utf8Encode s ++ [13, 10]).length = (utf8Encode s).length + 2 := by
      simp
    by_cases h : ((utf8Encode s).length + 2) % 64 = 0 <;>
      simp [h, hlen, List.append_assoc]

/-- C8: a transmit on a link that was never connected (`serial` is `None`)
does not raise `NotOpenError`: the guard in `writebin` silently drops the
data and returns without error. -/
theorem C8_counterexample :
    link_write ⟨false, false⟩ (toPy "x") = ([], none) ∧
    (link_write ⟨false, false⟩ (toPy "x")).2 ≠ some UpErr.notOpen := by decide

/-- C8 (amended): while a bridge object exists but its transport is not
open, every transmit operation (`write`, `writeLine`, `upload`, `execute`)
fails with `NotOpenError` propagated from the bridge's `write` (the upload
operations still raise their progress event first, and transmit nothing);
when no bridge object exists at all, writes return silently, the data is
dropped without any error, and an upload of an existing file completes
without transmitting anything. -/
theorem C8_amended :
    ∀ (s fname : PyStr) (fs : Option (List PyStr)) (contents : List PyStr)
      (b : Bool),
      link_write ⟨true, false⟩ s = ([], some UpErr.notOpen) ∧
      link_writeline ⟨true, false⟩ s = ([], some UpErr.notOpen) ∧
      upload ⟨true, false⟩ fname fs =
        ([UpItem.raiseEv (toPy "uploading") fname], some UpErr.notOpen) ∧
      execute ⟨true, false⟩ fname fs =
        ([UpItem.raiseEv (toPy "running") fname], some UpErr.notOpen) ∧
      link_write ⟨false, b⟩ s = ([], none) ∧
      upload ⟨false, b⟩ fname (some contents) =
        ([UpItem.raiseEv (toPy "uploading") fname], none) := by
  intro s fname fs contents b
  refine ⟨rfl, rfl, ?_, ?_, rfl, ?_⟩
  · cases fs with
    | none => rfl
    | some cs =>
      simp only [upload, upload_run, doWriteline, if_true]
      simp [writefile_run_err, doWriteline]
  · cases fs with
    | none => rfl
    | some cs =>
      simp only [execute, upload_run, doWriteline, if_true]
      simp [writefile_run_err, doWriteline]
  · simp only [upload, upload_run, doWriteline]
    simp [writefile_run_noserial, doWriteline]

/-- C3: a read failure while connected does not raise any `disconnect`
event before reconnecting: with the reconnect succeeding, the only event of
the iteration is `connect` and the connected flag stays true; with the
reconnect failing, the only event is `connect_err`. -/
theorem C3_counterexample :
    (read_forever_iter ⟨true, true, true⟩ ReadOutcome.fails
        OpenOutcome.opens).2.1 = [toPy "connect"] ∧
    toPy "disconnect" ∉
      (read_forever_iter ⟨true, true, true⟩ ReadOutcome.fails
        OpenOutcome.opens).2.1 ∧
    (read_forever_iter ⟨true, true, true⟩ ReadOutcome.fails
        OpenOutcome.opens).1.is_connected = true ∧
    (read_forever_iter ⟨true, true, true⟩ ReadOutcome.fails
        OpenOutcome.fails).2.1 = [toPy "connect_err"] := by decide

/-- C3 (amended): whenever a read in the background pump fails, no
`disconnect` event is raised in that iteration (the loss is only logged);
`reconnect` is called immediately, after which the connected flag is true
when the new bridge opened, unchanged when the open returned without a
transport, and false when the open raised; the events of the iteration are
exactly `connect` on a successful open, nothing on a silent one, and
`connect_err` on a failed open from a previously connected link. -/
theorem C3_amended :
    ∀ (st : LinkSt) (oc : OpenOutcome),
      toPy "disconnect" ∉ (read_forever_iter st ReadOutcome.fails oc).2.1 ∧
      (read_forever_iter st ReadOutcome.fails oc).1.is_connected =
        (match oc with
         | .opens => true
         | .silent => st.is_connected
         | .fails => false) ∧
      (read_forever_iter st ReadOutcome.fails oc).2.1 =
        (match oc with
         | .opens => [toPy "connect"]
         | .silent => []
         | .fails => if st.is_connected then [toPy "connect_err"] else []) := by
  intro st oc
  obtain ⟨c, hs, so⟩ := st
  cases oc <;> cases c <;> cases hs <;> cases so <;> decide

/-- C4: the pump discards everything it reads. The read data is immediately
rebound to the empty string, so a non-empty read that the claim says is
split into two lines and fed to the tokenizer feeds nothing at all. -/
theorem C4_pump_discards :
    pump_process (toPy "foo\n\rbar") = [] ∧
    splitNR (toPy "foo\n\rbar") = [toPy "foo", toPy "bar"] ∧
    (read_forever_iter ⟨true, true, true⟩
        (ReadOutcome.ok (toPy "foo\n\rbar")) OpenOutcome.opens).2.2 = [] := by
  decide

/-- Invocation order distributes over concatenated dispatch traces. -/
theorem invokedIds_append (xs ys : List DispatchAction) :
    invokedIds (xs ++ ys) = invokedIds xs ++ invokedIds ys := by
  induction xs with
  | nil => rfl
  | cons a rest ih => cases a <;> simp [invokedIds, ih]

/-- Each handler is invoked exactly once, whether or not it raises. -/
theorem invokedIds_run_handler (h : Handler) :
    invokedIds (run_handler h) = [h.id] := by
  cases hb : h.throws <;> simp [run_handler, hb, invokedIds]

/-- Dispatching a handler list invokes every handler in list order. -/
theorem invokedIds_dispatch (hs : List Handler) :
    invokedIds ((hs.map run_handler).flatten) = hs.map Handler.id := by
  induction hs with
  | nil => rfl
  | cons a rest ih =>
    simp [invokedIds_append, invokedIds_run_handler, ih]

/-- C6: raising an event with no registered subscribers is a no-op, and
with subscribers every one of them is invoked, in registration order, even
when earlier ones raise: a raising handler is logged and skipped, and the
dispatch always runs to completion without propagating the exception. -/
theorem C6_dispatch :
    ∀ (table : List (PyStr × List Handler)) (ev : PyStr),
      (lookupHandlers table ev = none → raise_event table ev = []) ∧
      (∀ hs, lookupHandlers table ev = some hs →
        invokedIds (raise_event table ev) = hs.map Handler.id) := by
  intro table ev
  constructor
  · intro h
    simp [raise_event, h]
  · intro hs h
    simp [raise_event, h, invokedIds_dispatch]

/-- C6 at a concrete input: a first handler that raises does not prevent
the second handler registered for the same event from being invoked. -/
theorem C6_witness :
    invokedIds (raise_event [(toPy "x", [⟨1, true⟩, ⟨2, false⟩])] (toPy "x")) =
      [1, 2] :=
  (C6_dispatch [(toPy "x", [⟨1, true⟩, ⟨2, false⟩])] (toPy "x")).2
    [⟨1, true⟩, ⟨2, false⟩] (by decide)

/-- C9: the bridge's `read` bounds the number of dequeued entries, not the
number of returned bytes: one queued five-byte chunk is returned whole by a
one-byte read. -/
theorem C9_counterexample :
    ws_read 1 [[1, 2, 3, 4, 5]] = ([1, 2, 3, 4, 5], []) ∧
    ¬ (ws_read 1 [[1, 2, 3, 4, 5]]).1.length ≤ 1 := by decide

/-- C9 (amended): `read(maxBytes, timeout)` dequeues at most `maxBytes`
entries of the inbound queue — whole received chunks, not single bytes —
and returns their concatenation, which may therefore exceed `maxBytes`
bytes; when the queue runs dry within the timeout it returns whatever has
accumulated, possibly empty. -/
theorem C9_amended :
    ∀ (size : Nat) (q : List (List Nat)),
      ws_read size q = ((q.take size).flatten, q.drop size) := by
  intro size
  induction size with
  | zero => intro q; rfl
  | succ n ih =>
    intro q
    cases q with
    | nil => rfl
    | cons ch rest => simp [ws_read, ih rest]

end Diii
